import Mathlib

/-!
A shallow embedding of the IkitchenSalesReportApp pipeline
(`src/utils.py`, `src/process_pos_data.py`, `src/reporting.py`,
`src/models.py`) in Lean 4, together with theorems settling the
specification claims about it.

Modelling conventions:
* Python floats (money amounts) are modelled as exact rationals `ℚ`;
  the claims under study are about which rows contribute to which
  aggregate, not about IEEE-754 rounding.
* Python strings are Lean `String`s; character-level work happens on
  `String.data : List Char`.
* A `pandas` cell that may fail to parse (dates, times) is modelled as
  an `Option` of the parsed value.
* Python exceptions that abort a run are modelled with `Except String`.
-/

namespace IkitchenSalesReport

/-! ### `reporting.py`: `clean_amount`

Python source:
```
cleaned = str(amount_str).replace(',', '').replace(' ', '').strip()
if cleaned == '' or cleaned.lower() == 'nan':
    return 0.0
return float(cleaned)   -- any exception yields 0.0
```
`float(...)` on a string is modelled by `pyFloatOfString?`, a parser for
Python's decimal floating-point literal grammar
(`[sign] digits [. digits] [(e|E) [sign] digits]`, at least one mantissa
digit); inputs outside that grammar (including `inf`/underscored
literals, which no claim exercises) give `none`, i.e. the `except`
branch. -/

def digitVal (c : Char) : ℕ := c.toNat - '0'.toNat

def natOfDigits (cs : List Char) : ℕ :=
  cs.foldl (fun acc c => acc * 10 + digitVal c) 0

/-- Parse the unsigned mantissa `digits [. digits]` (at least one digit
overall) into a rational, together with nothing left over. -/
def mantissaOfChars? (cs : List Char) : Option ℚ :=
  let intPart := cs.takeWhile Char.isDigit
  let rest := cs.dropWhile Char.isDigit
  match rest with
  | [] => if intPart = [] then none else some (natOfDigits intPart)
  | '.' :: fracRest =>
      let fracPart := fracRest.takeWhile Char.isDigit
      let rest2 := fracRest.dropWhile Char.isDigit
      if rest2 = [] then
        if intPart = [] ∧ fracPart = [] then none
        else some ((natOfDigits intPart : ℚ) +
          (natOfDigits fracPart : ℚ) / (10 : ℚ) ^ fracPart.length)
      else none
  | _ => none

/-- Split an optional leading sign off a character list; returns the
sign as a rational factor together with the remainder. -/
def splitSign : List Char → ℚ × List Char
  | '+' :: rest => (1, rest)
  | '-' :: rest => (-1, rest)
  | cs => (1, cs)

/-- Model of Python `float(s)` restricted to decimal literals:
`[sign] digits [. digits] [(e|E) [sign] digits]`. -/
def pyFloatOfString? (s : String) : Option ℚ :=
  let (sgn, cs) := splitSign s.data
  let mantChars := cs.takeWhile (fun c => c.isDigit ∨ c = '.')
  let rest := cs.dropWhile (fun c => c.isDigit ∨ c = '.')
  match mantissaOfChars? mantChars with
  | none => none
  | some m =>
    match rest with
    | [] => some (sgn * m)
    | e :: expRest =>
      if e = 'e' ∨ e = 'E' then
        let (esgn, eds) := splitSign expRest
        if eds ≠ [] ∧ eds.all Char.isDigit then
          some (sgn * m * (10 : ℚ) ^ ((esgn * natOfDigits eds : ℚ)).num)
        else none
      else none

/-- Python `str.lower()` (character-wise, which agrees on the ASCII
labels the source handles). -/
def pyLower (s : String) : String := ⟨s.data.map Char.toLower⟩

/-- Python `str.strip()`: drop leading and trailing whitespace. -/
def pyStrip (s : String) : String :=
  ⟨((s.data.dropWhile Char.isWhitespace).reverse.dropWhile
      Char.isWhitespace).reverse⟩

/-- Model of the local variable `cleaned` in `clean_amount`:
`str(amount_str).replace(',', '').replace(' ', '').strip()`. -/
def cleaned_amount_str (amount_str : String) : String :=
  pyStrip ⟨amount_str.data.filter (fun c => c ≠ ',' ∧ c ≠ ' ')⟩

/-- Model of `reporting.py` `clean_amount`: remove every `','` and
`' '`, strip, then `float(...)`; the empty string, `'nan'` (any case)
and any parse failure give `0.0`.  The function is total: no input
raises. -/
def clean_amount (amount_str : String) : ℚ :=
  if cleaned_amount_str amount_str = "" ∨
      pyLower (cleaned_amount_str amount_str) = "nan" then 0
  else
    match pyFloatOfString? (cleaned_amount_str amount_str) with
    | some q => q
    | none => 0

/-! ### `reporting.py`: `categorize_meal_period`

A `datetime.time` value is modelled as seconds since midnight
(`datetime.time` comparison is lexicographic on (h, m, s), i.e. the
order of the second count). -/

/-- Seconds since midnight for `time(h, m, s)`. -/
def hms (h m s : ℕ) : ℕ := h * 3600 + m * 60 + s

def breakfast_start : ℕ := hms 6 0 0
def breakfast_end : ℕ := hms 12 30 0
def lunch_end : ℕ := hms 17 0 0

/-- `reporting.py` `categorize_meal_period`; `none` models a sale time
that was missing or failed to parse (`parse_time_flexible` → `None`). -/
def categorize_meal_period : Option ℕ → String
  | none => "Unknown"
  | some sale_time =>
    if sale_time < breakfast_start then "Dinner"
    else if breakfast_start ≤ sale_time ∧ sale_time < breakfast_end then "Breakfast"
    else if breakfast_end ≤ sale_time ∧ sale_time ≤ lunch_end then "Lunch"
    else "Dinner"

/-! ### `reporting.py`: `format_report_new_style`'s `ordertype_sums`

Python `pat in s` (substring test) is modelled by `containsSub`. -/

/-- Does `l` begin with `pat`? -/
def leadMatch : List Char → List Char → Bool
  | [], _ => true
  | _ :: _, [] => false
  | p :: ps, c :: cs => p = c && leadMatch ps cs

/-- Python `pat in s` on the underlying character lists. -/
def containsSub (pat : List Char) : List Char → Bool
  | [] => leadMatch pat []
  | c :: cs => leadMatch pat (c :: cs) || containsSub pat cs

/-- Python `pat in s` for strings. -/
def strContains (s pat : String) : Bool := containsSub pat.data s.data

/-- One iteration of the `for order_type, amount in
ordertype_totals.items()` loop in `ordertype_sums`:
the accumulator is `(eatin, delivery, takeaway)`. -/
def ordertype_sums_step (acc : ℚ × ℚ × ℚ) (kv : String × ℚ) : ℚ × ℚ × ℚ :=
  if strContains (pyLower kv.1) "delivery" then
    (acc.1, acc.2.1 + kv.2, acc.2.2)
  else if strContains (pyLower kv.1) "eat in" ∨
      strContains (pyLower kv.1) "dine" then
    (acc.1 + kv.2, acc.2.1, acc.2.2)
  else if strContains (pyLower kv.1) "take away" ∨
      strContains (pyLower kv.1) "takeaway" then
    (acc.1, acc.2.1, acc.2.2 + kv.2)
  else
    (acc.1 + kv.2, acc.2.1, acc.2.2)

/-- Model of `ordertype_sums` from `format_report_new_style`: fold the
(label, amount) pairs into the `(eatin, delivery, takeaway)` buckets,
matching lowercased substrings with the source's branch order. -/
def ordertype_sums (ordertype_totals : List (String × ℚ)) : ℚ × ℚ × ℚ :=
  ordertype_totals.foldl ordertype_sums_step (0, 0, 0)

/-! ### `utils.py`: `standardize_phone_number`

The input is modelled as a string (a numeric cell goes through
`str(int(x))` in the source, which also yields a digit string; the
`pd.isna` early-`None` return concerns only missing cells). -/

/-- Model of `"".join(filter(str.isdigit, phone_number))`. -/
def phone_digits (phone_number : String) : List Char :=
  phone_number.data.filter Char.isDigit

/-- The country-code normalization block of `standardize_phone_number`:
```
if not phone_number.startswith("+880"):
    if phone_number.startswith("0"):   phone_number = "880" + phone_number[1:]
    elif phone_number.startswith("880"): pass
    else:                               phone_number = "880" + phone_number
```
(`leadMatch pat l` is Python `l.startswith(pat)`.) -/
def phone_with_country_code (digits : List Char) : List Char :=
  if leadMatch "+880".data digits then digits
  else if leadMatch "0".data digits then "880".data ++ digits.drop 1
  else if leadMatch "880".data digits then digits
  else "880".data ++ digits

/-- The claim's "local portion": digits after non-digit stripping,
country-code normalization and removal of the 3-character code. -/
def phone_local_portion (phone_number : String) : List Char :=
  (phone_with_country_code (phone_digits phone_number)).drop 3

/-- Model of `utils.py` `standardize_phone_number`: reject when the
local number has length outside 8–15, else return the `'+'`-prefixed
normalized digit string. -/
def standardize_phone_number (phone_number : String) : Option String :=
  if (phone_local_portion phone_number).length < 8 ∨
      (phone_local_portion phone_number).length > 15 then none
  else some ("+" ++ String.mk (phone_with_country_code (phone_digits phone_number)))

/-! ### `utils.py`: `get_spreadsheet_data`

The file is modelled as the list of its (already cell-split) rows.
`pd.read_csv(file, skiprows=skip)` sees `rows.drop skip` and takes its
first row as the header; when no rows remain it raises
`EmptyDataError("No columns to parse from file")`, which the `while`
loop in `dynamic_skip` does not catch.  The loop starting at `skip = 0`
and retrying with `skip + 1` is therefore the following recursion on
the remaining rows (the returned value is the accepted header/columns).
-/

def header_markers_found (cols : List String) : Prop :=
  "Customer name" ∈ cols ∨ "Contact Number" ∈ cols

instance (cols : List String) : Decidable (header_markers_found cols) := by
  unfold header_markers_found; infer_instance

/-- Model of `dynamic_skip` from `get_spreadsheet_data`. -/
def dynamic_skip : List (List String) → Except String (List String)
  | [] => .error "No columns to parse from file"
  | header :: rest =>
    if header_markers_found header then .ok header
    else dynamic_skip rest

/-! ### `models.py` and `process_pos_data.py` -/

/-- Model of `models.py` `OrderItem`. -/
structure OrderItem where
  item_name : String
  quantity : ℚ
  amount : ℚ
deriving DecidableEq

/-- Model of `models.py` `Order`.  `order_type : String` (not `Option String`):
pydantic rejects `None` for this field, which matters for claim C3. -/
structure Order where
  order_id : String
  customer_id : Option String
  order_date : String
  order_items : List OrderItem
  order_items_text : String
  total_amount : ℚ
  order_type : String
  receipt_id : String
  location : String
deriving DecidableEq

/-- Model of `order_type_mapping` from `process_pos_data.py`:
a dict with exactly the three keys below; `.get` on anything else is
`None`. -/
def order_type_mapping (label : String) : Option String :=
  if label = "Take away" then some "Take away"
  else if label = "Eat in" then some "Dine-In"
  else if label = "Delivery" then some "Delivery"
  else none

/-- A parsed sale date (`pd.Timestamp`, date part). -/
structure SaleDate where
  day : ℕ
  month : ℕ
  year : ℕ
deriving DecidableEq

/-- Calendar sanity of a `pd.Timestamp` date: two-digit day and month
fields and a four-digit year (pandas timestamps range over years
1677–2262, so this holds of every value the source can produce). -/
def SaleDate.Valid (d : SaleDate) : Prop :=
  d.day < 100 ∧ d.month < 100 ∧ d.year < 10000

instance (d : SaleDate) : Decidable d.Valid := by
  unfold SaleDate.Valid; infer_instance

/-- Zero-pad the decimal representation of `n` to width `w`
(Python `strftime` field formatting). -/
def padZeros (w n : ℕ) : String :=
  ⟨List.replicate (w - (Nat.repr n).length) '0' ++ (Nat.repr n).data⟩

/-- Model of `order_date.strftime("%d_%m_%Y")`. -/
def format_sale_date (d : SaleDate) : String :=
  padZeros 2 d.day ++ "_" ++ padZeros 2 d.month ++ "_" ++ padZeros 4 d.year

/-- Model of `parsed_date.isoformat()` (midnight timestamp). -/
def iso_of_sale_date (d : SaleDate) : String :=
  padZeros 4 d.year ++ "-" ++ padZeros 2 d.month ++ "-" ++ padZeros 2 d.day
    ++ "T00:00:00"

/-- One row of the POS ingestion spreadsheet after the cleaning steps of
`process_pos_data` (numeric coercion of quantity/amount and resolution
of the per-line tax `__Tax_line_total__` from whichever tax columns the
export has).  `sale_date = none` models a "Sale date" cell that
`pd.to_datetime(..., errors="coerce")` fails to parse. -/
structure PosRow where
  receipt_no : String
  sale_date : Option SaleDate
  item_name : String
  item_quantity : ℚ
  item_amount : ℚ
  tax_line_total : ℚ
  customer_mobile : Option String
  register_name : String
  ordertype_name : String
deriving DecidableEq

/-- Model of `data.drop_duplicates("Receipt no")` (pandas keeps the first row for
each receipt number), written with a seen-set accumulator. -/
def drop_duplicates_aux (seen : List String) : List PosRow → List PosRow
  | [] => []
  | r :: rs =>
    if r.receipt_no ∈ seen then drop_duplicates_aux seen rs
    else r :: drop_duplicates_aux (r.receipt_no :: seen) rs

def drop_duplicates_receipt (data : List PosRow) : List PosRow :=
  drop_duplicates_aux [] data

/-- Model of `receipt_totals.items_total` per receipt (grouped sum of
"Item amount"). -/
def receipt_items_total (data : List PosRow) (rno : String) : ℚ :=
  ((data.filter (fun r => r.receipt_no = rno)).map (·.item_amount)).sum

/-- Model of `receipt_totals.tax_total` per receipt. -/
def receipt_tax_total (data : List PosRow) (rno : String) : ℚ :=
  ((data.filter (fun r => r.receipt_no = rno)).map (·.tax_line_total)).sum

/-- Model of `receipt_totals["total_with_tax"] = items_total + tax_total`. -/
def receipt_total_with_tax (data : List PosRow) (rno : String) : ℚ :=
  receipt_items_total data rno + receipt_tax_total data rno

/-- The grouped `order_items` for one receipt (source row order
preserved). -/
def grouped_order_items (data : List PosRow) (rno : String) : List OrderItem :=
  (data.filter (fun r => r.receipt_no = rno)).map
    (fun r => ⟨r.item_name, r.item_quantity, r.item_amount⟩)

/-- The grouped `order_items_text` (`"name (xqty)"` joined by `"; "`;
the Lean rendering of the quantity rational stands in for Python's
float formatting — no claim depends on this text). -/
def grouped_order_items_text (data : List PosRow) (rno : String) : String :=
  String.intercalate "; "
    ((data.filter (fun r => r.receipt_no = rno)).map
      (fun r => r.item_name ++ " (x" ++ toString r.item_quantity ++ ")"))

/-- Model of `format_receipt_id` from `process_pos_data`:
`f"{receipt_no}_{sale_date.strftime('%d_%m_%Y')}"`, `None` when the
date does not parse. -/
def format_receipt_id (r : PosRow) : Option String :=
  match r.sale_date with
  | some d => some (r.receipt_no ++ "_" ++ format_sale_date d)
  | none => none

/-- Model of `'Santorini' if row.get('Register name') == 'CO-50010' else 'Lahore'`. -/
def resolve_location (register_name : String) : String :=
  if register_name = "CO-50010" then "Santorini" else "Lahore"

/-- The order-building loop of `process_pos_data` over the deduplicated
rows.  Parameters record the external collaborators of the run:
`existing` is the receipt-key set returned by
`get_existing_receipts_ids`, `customer_id_map` the phone → id map from
`batch_insert_customers`, and `uuid_seq i` the `i`-th `uuid.uuid4()`
draw of the run.  A row with an unparseable date or an
already-existing receipt key is skipped (`continue`); constructing an
`Order` with `order_type=None` (unmapped label) raises a pydantic
`ValidationError`, modelled as `Except.error`, which aborts the run
before `batch_insert_orders` is reached. -/
def build_orders_from (data : List PosRow) (existing : List String)
    (customer_id_map : String → Option String) (uuid_seq : ℕ → String) :
    ℕ → List PosRow → Except String (List Order)
  | _, [] => .ok []
  | idx, row :: rest =>
    match row.sale_date with
    | none =>
      -- "Skipping order with missing or invalid date"
      build_orders_from data existing customer_id_map uuid_seq idx rest
    | some d =>
      if row.receipt_no ++ "_" ++ format_sale_date d ∈ existing then
        -- "Skipping order with receipt ID ... - already in the database"
        build_orders_from data existing customer_id_map uuid_seq idx rest
      else
        match order_type_mapping row.ordertype_name with
        | none =>
          .error ("pydantic ValidationError: order_type may not be None, receipt "
            ++ (row.receipt_no ++ "_" ++ format_sale_date d))
        | some mapped_type =>
          match build_orders_from data existing customer_id_map uuid_seq (idx + 1) rest with
          | .error e => .error e
          | .ok orders =>
            .ok ({ order_id := uuid_seq idx
                   customer_id :=
                     (row.customer_mobile.bind standardize_phone_number).bind
                       customer_id_map
                   order_date := iso_of_sale_date d
                   order_items := grouped_order_items data row.receipt_no
                   order_items_text := grouped_order_items_text data row.receipt_no
                   total_amount := receipt_total_with_tax data row.receipt_no
                   order_type := mapped_type
                   receipt_id := row.receipt_no ++ "_" ++ format_sale_date d
                   location := resolve_location row.register_name } :: orders)

/-- The list of `Order`s a `process_pos_data` run hands to
`batch_insert_orders` (or the exception that aborted the run). -/
def process_pos_orders (data : List PosRow) (existing : List String)
    (customer_id_map : String → Option String) (uuid_seq : ℕ → String) :
    Except String (List Order) :=
  build_orders_from data existing customer_id_map uuid_seq 0
    (drop_duplicates_receipt data)

/-! ### `reporting.py`: the date-window filter of `process_ikitchen_data`

A `pd.Timestamp` is modelled as minutes since an epoch (an integer);
a calendar day `d` starts at minute `1440 * d`.  `sale_dt = none`
models `NaT`, for which both pandas comparisons are `False`. -/

/-- One row of the iKitchen report CSV at the point of the date filter
(amounts already cleaned, status filter already applied). -/
structure ReportRow where
  receipt_no : String
  sale_dt : Option ℤ
  ordertype_name : Option String
  register_name : String
  amount_clean : ℚ
  tax_clean : ℚ
deriving DecidableEq

/-- Model of `.dt.date` of a timestamp: the calendar day containing it. -/
def date_of_minutes (t : ℤ) : ℤ := Int.fdiv t 1440

/-- The resolved target report day: the `DD-MM-YYYY` date parsed from
the metadata line when present, else the earliest date among the rows'
valid sale timestamps (`valid_dates.min()`), else none. -/
def resolve_report_date (metadata_date : Option ℤ) (rows : List ReportRow) :
    Option ℤ :=
  match metadata_date with
  | some day => some day
  | none => ((rows.filterMap (·.sale_dt)).map date_of_minutes).min?

/-- The row filter
`df[(df['Sale_dt'] >= start_dt) & (df['Sale_dt'] <= end_dt)]` with
`start_dt = report day at 00:00` and `end_dt = next day at 02:00`;
applied only when a report date resolves. -/
def ikitchen_window_filter (metadata_date : Option ℤ) (rows : List ReportRow) :
    List ReportRow :=
  match resolve_report_date metadata_date rows with
  | none => rows
  | some day =>
    rows.filter (fun r =>
      match r.sale_dt with
      | some t => decide (1440 * day ≤ t) && decide (t ≤ 1440 * (day + 1) + 120)
      | none => false)

/-! ### `reporting.py`: `get_metrics` over the grouped receipt table -/

/-- One row of `grouped` (the receipt-level table): per-receipt summed
`Order_total` and the first-seen order-type label (`none` models a NaN
label, which `groupby` drops from `ordertype_totals` but which still
counts toward `total_sales`). -/
structure ReceiptRow where
  receipt_no : String
  ordertype_name : Option String
  register_name : String
  meal_period : String
  order_total : ℚ
deriving DecidableEq

/-- Add `v` to key `k` of an association list of running totals
(the association-list reading of a `groupby(...).sum().to_dict()`). -/
def add_to_totals (k : String) (v : ℚ) : List (String × ℚ) → List (String × ℚ)
  | [] => [(k, v)]
  | (k', v') :: rest =>
    if k' = k then (k', v' + v) :: rest else (k', v') :: add_to_totals k v rest

def group_totals (pairs : List (String × ℚ)) : List (String × ℚ) :=
  pairs.foldl (fun acc kv => add_to_totals kv.1 kv.2 acc) []

/-- Model of `get_metrics` `ordertype_totals = orders_df.groupby('Ordertype
name')['Order_total'].sum().to_dict()` — receipts with a NaN label are
dropped by `groupby`. -/
def get_metrics_ordertype_totals (orders_df : List ReceiptRow) :
    List (String × ℚ) :=
  group_totals (orders_df.filterMap
    (fun r => r.ordertype_name.map (fun k => (k, r.order_total))))

/-- Model of `get_metrics` `total_sales = float(orders_df['Order_total'].sum())`. -/
def get_metrics_total_sales (orders_df : List ReceiptRow) : ℚ :=
  (orders_df.map (·.order_total)).sum

/-- Model of `get_metrics` `period_totals` (for completeness; no claim
is about it directly). -/
def get_metrics_period_totals (orders_df : List ReceiptRow) :
    List (String × ℚ) :=
  group_totals (orders_df.map (fun r => (r.meal_period, r.order_total)))

/-- The bucket the claim's priority rules assign to a raw order-type
label (written from the spec sentence for claim C5, to be compared with
the `ordertype_sums` fold). -/
inductive OrderBucket where
  | eatin
  | delivery
  | takeaway
deriving DecidableEq

def bucket_of_label (label : String) : OrderBucket :=
  let s := pyLower label
  if strContains s "delivery" then .delivery
  else if strContains s "eat in" ∨ strContains s "dine" then .eatin
  else if strContains s "take away" ∨ strContains s "takeaway" then .takeaway
  else .eatin

/-- The receipt row used by the C2 counterexample: its sale timestamp
is exactly 02:00 on the day after report day 0 (minute 1560). -/
def c2_boundary_row : ReportRow :=
  { receipt_no := "R9", sale_dt := some (1440 * (0 + 1) + 120),
    ordertype_name := some "Delivery", register_name := "CO-50010",
    amount_clean := 100, tax_clean := 10 }

/-- A concrete POS row with an order-type label outside the enumeration
(used by the C3 counterexample). -/
def c3_unrecognized_row : PosRow :=
  { receipt_no := "R1", sale_date := some ⟨5, 3, 2024⟩, item_name := "Burger",
    item_quantity := 1, item_amount := 100, tax_line_total := 5,
    customer_mobile := none, register_name := "CO-50010",
    ordertype_name := "Foo" }

/-- A concrete POS row with a recognized order-type label (used by the
C1 witness). -/
def c1_sample_row : PosRow :=
  { receipt_no := "A", sale_date := some ⟨5, 3, 2024⟩, item_name := "Tea",
    item_quantity := 1, item_amount := 50, tax_line_total := 5,
    customer_mobile := none, register_name := "CO-50010",
    ordertype_name := "Take away" }

/-! ## Theorems -/

/-- Claim C4.  Meal-period boundaries: `categorize_meal_period` returns
Dinner strictly before 06:00, Breakfast on [06:00, 12:30), Lunch on
[12:30, 17:00] (17:00:00 inclusive), Dinner strictly after 17:00, and
"Unknown" for a missing/unparseable time; in particular 05:59:59 →
Dinner, 06:00:00 → Breakfast, 12:29:59 → Breakfast, 12:30:00 → Lunch,
17:00:00 → Lunch, 17:00:01 → Dinner. -/
theorem claim_C4 :
    categorize_meal_period none = "Unknown" ∧
    (∀ t : ℕ, categorize_meal_period (some t) =
      if t < hms 6 0 0 then "Dinner"
      else if t < hms 12 30 0 then "Breakfast"
      else if t ≤ hms 17 0 0 then "Lunch"
      else "Dinner") ∧
    categorize_meal_period (some (hms 5 59 59)) = "Dinner" ∧
    categorize_meal_period (some (hms 6 0 0)) = "Breakfast" ∧
    categorize_meal_period (some (hms 12 29 59)) = "Breakfast" ∧
    categorize_meal_period (some (hms 12 30 0)) = "Lunch" ∧
    categorize_meal_period (some (hms 17 0 0)) = "Lunch" ∧
    categorize_meal_period (some (hms 17 0 1)) = "Dinner" := by
  refine ⟨rfl, ?_, by decide, by decide, by decide, by decide, by decide, by decide⟩
  intro t
  simp only [categorize_meal_period, breakfast_start, breakfast_end, lunch_end, hms]
  split_ifs <;> first | rfl | omega

/-- Claim C9.  Spreadsheet reader termination: for every finite file,
the header-search loop of `get_spreadsheet_data` terminates — it
returns a header containing one of the markers "Customer name" /
"Contact Number", or, when no row of the file contains a marker, it
exhausts the file and surfaces the parse error; the skip count cannot
grow forever (the model `dynamic_skip` is a total function). -/
theorem claim_C9 (rows : List (List String)) :
    (∃ cols, dynamic_skip rows = .ok cols ∧ header_markers_found cols) ∨
    ((∀ row ∈ rows, ¬ header_markers_found row) ∧
      dynamic_skip rows = .error "No columns to parse from file") := by
  induction rows with
  | nil => exact Or.inr ⟨by simp, rfl⟩
  | cons h t ih =>
    by_cases hh : header_markers_found h
    · exact Or.inl ⟨h, by simp [dynamic_skip, hh], hh⟩
    · rcases ih with ⟨cols, hok, hm⟩ | ⟨hall, herr⟩
      · exact Or.inl ⟨cols, by simp [dynamic_skip, hh, hok], hm⟩
      · refine Or.inr ⟨?_, by simp [dynamic_skip, hh, herr]⟩
        intro r hr
        rcases List.mem_cons.mp hr with rfl | hr
        · exact hh
        · exact hall r hr

/-- Generalization of `ordertype_sums` to an arbitrary accumulator:
folding distributes each pair's amount to the bucket chosen by
`bucket_of_label`. -/
theorem ordertype_sums_foldl (l : List (String × ℚ)) :
    ∀ e d t : ℚ, l.foldl ordertype_sums_step (e, d, t) =
      (e + ((l.filter (fun kv => bucket_of_label kv.1 = .eatin)).map Prod.snd).sum,
       d + ((l.filter (fun kv => bucket_of_label kv.1 = .delivery)).map Prod.snd).sum,
       t + ((l.filter (fun kv => bucket_of_label kv.1 = .takeaway)).map Prod.snd).sum) := by
  induction l with
  | nil => intro e d t; simp
  | cons kv l ih =>
    intro e d t
    rw [List.foldl_cons]
    by_cases h1 : strContains (pyLower kv.1) "delivery" = true
    · simp only [ordertype_sums_step, h1, if_true, ih, bucket_of_label,
        List.filter_cons]
      simp [h1]
      try ring
    · by_cases h2 : (strContains (pyLower kv.1) "eat in" ∨
          strContains (pyLower kv.1) "dine")
      · simp only [ordertype_sums_step, h1, if_false, h2, if_true, ih,
          bucket_of_label, List.filter_cons]
        simp [h1, h2]
        try ring
      · by_cases h3 : (strContains (pyLower kv.1) "take away" ∨
            strContains (pyLower kv.1) "takeaway")
        · simp only [ordertype_sums_step, h1, if_false, h2, h3, if_true, ih,
            bucket_of_label, List.filter_cons]
          simp [h1, h2, h3]
          try ring
        · simp only [ordertype_sums_step, h1, if_false, h2, h3, ih,
            bucket_of_label, List.filter_cons]
          simp [h1, h2, h3]
          try ring

/-- Claim C5.  Report order-type bucketing: `ordertype_sums` assigns
each label's amount to exactly one bucket, the one selected by the
stated case-insensitive substring priority (delivery, then eat in /
dine, then take away / takeaway, with everything unrecognized folding
into Eat-in): the three components are exactly the sums over the
correspondingly bucketed labels. -/
theorem claim_C5 (ordertype_totals : List (String × ℚ)) :
    ordertype_sums ordertype_totals =
      (((ordertype_totals.filter
          (fun kv => bucket_of_label kv.1 = .eatin)).map Prod.snd).sum,
       ((ordertype_totals.filter
          (fun kv => bucket_of_label kv.1 = .delivery)).map Prod.snd).sum,
       ((ordertype_totals.filter
          (fun kv => bucket_of_label kv.1 = .takeaway)).map Prod.snd).sum) := by
  unfold ordertype_sums
  rw [ordertype_sums_foldl]
  simp

theorem phone_digits_all (s : String) : ∀ c ∈ phone_digits s, c.isDigit = true :=
  fun _ hc => (List.mem_filter.mp hc).2

theorem leadMatch_iff_take (pat : List Char) :
    ∀ l, leadMatch pat l = true ↔ l.take pat.length = pat := by
  induction pat with
  | nil => intro l; simp [leadMatch]
  | cons p ps ih =>
    intro l
    rcases l with _ | ⟨c, cs⟩
    · simp [leadMatch]
    · simp only [leadMatch, Bool.and_eq_true, decide_eq_true_eq, List.length_cons,
        List.take_succ_cons, List.cons.injEq, ih]
      constructor
      · rintro ⟨rfl, h⟩; exact ⟨rfl, h⟩
      · rintro ⟨rfl, h⟩; exact ⟨rfl, h⟩

theorem leadMatch_plus_false (digits : List Char)
    (hd : ∀ c ∈ digits, c.isDigit = true) :
    leadMatch "+880".data digits = false := by
  rcases digits with _ | ⟨c, cs⟩
  · rfl
  · have hc : c.isDigit = true := hd c (List.mem_cons_self c cs)
    have hne : ¬('+' = c) := fun h => by rw [← h] at hc; exact absurd hc (by decide)
    have e : "+880".data = '+' :: '8' :: '8' :: '0' :: [] := rfl
    rw [e]
    simp [leadMatch, hne]

/-- After country-code normalization of an all-digit list, the result
is `880` followed by a digit tail. -/
theorem phone_wcc_shape (digits : List Char)
    (hd : ∀ c ∈ digits, c.isDigit = true) :
    ∃ rest, phone_with_country_code digits = '8' :: '8' :: '0' :: rest ∧
      ∀ c ∈ rest, c.isDigit = true := by
  unfold phone_with_country_code
  rw [leadMatch_plus_false digits hd]
  simp only [Bool.false_eq_true, if_false]
  by_cases h2 : leadMatch "0".data digits = true
  · rw [if_pos h2]
    have htake := (leadMatch_iff_take "0".data digits).mp h2
    rcases digits with _ | ⟨c, cs⟩
    · simp at htake
    · simp only [List.length_cons, List.length_nil, List.take_succ_cons, List.take_zero,
        List.cons.injEq, and_true] at htake
      refine ⟨cs, by simp, ?_⟩
      intro x hx
      exact hd x (List.mem_cons_of_mem c hx)
  · rw [if_neg h2]
    by_cases h3 : leadMatch "880".data digits = true
    · rw [if_pos h3]
      have htake := (leadMatch_iff_take "880".data digits).mp h3
      have hdig : digits = '8' :: '8' :: '0' :: digits.drop 3 := by
        conv_lhs => rw [← List.take_append_drop 3 digits]
        rw [show ("880".data).length = 3 from rfl] at htake
        rw [htake]
        rfl
      refine ⟨digits.drop 3, hdig, ?_⟩
      intro x hx
      exact hd x (List.drop_subset 3 digits hx)
    · rw [if_neg h3]
      exact ⟨digits, rfl, hd⟩

/-- Country-code normalization is the identity on a list that already
starts with `880`. -/
theorem phone_wcc_fixed (rest : List Char) :
    phone_with_country_code ('8' :: '8' :: '0' :: rest) = '8' :: '8' :: '0' :: rest := by
  unfold phone_with_country_code
  have h1 : leadMatch "+880".data ('8' :: '8' :: '0' :: rest) = false := rfl
  have h2 : leadMatch "0".data ('8' :: '8' :: '0' :: rest) = false := rfl
  have h3 : leadMatch "880".data ('8' :: '8' :: '0' :: rest) = true := rfl
  rw [h1, h2, h3]
  simp

/-- Claim C6.  Phone standardization idempotence: whenever
`standardize_phone_number` returns a value, applying it to that value
returns the same value. -/
theorem claim_C6 (s out : String) (h : standardize_phone_number s = some out) :
    standardize_phone_number out = some out := by
  obtain ⟨rest, hn, hrest⟩ := phone_wcc_shape (phone_digits s) (phone_digits_all s)
  unfold standardize_phone_number at h
  by_cases hlen : (phone_local_portion s).length < 8 ∨ (phone_local_portion s).length > 15
  · rw [if_pos hlen] at h; exact absurd h (by simp)
  · rw [if_neg hlen] at h
    have hout : out = "+" ++ String.mk (phone_with_country_code (phone_digits s)) :=
      (Option.some.inj h).symm
    have hdata : out.data = '+' :: '8' :: '8' :: '0' :: rest := by
      rw [hout, String.data_append, hn]; rfl
    have hpd : phone_digits out = '8' :: '8' :: '0' :: rest := by
      unfold phone_digits
      rw [hdata]
      rw [show List.filter Char.isDigit ('+' :: '8' :: '8' :: '0' :: rest) =
        '8' :: '8' :: '0' :: List.filter Char.isDigit rest from rfl]
      rw [List.filter_eq_self.mpr hrest]
    have hloc : phone_local_portion s = rest := by
      unfold phone_local_portion
      rw [hn]
      rfl
    have hloc' : phone_local_portion out = rest := by
      unfold phone_local_portion
      rw [hpd, phone_wcc_fixed]
      rfl
    unfold standardize_phone_number
    rw [hloc'] at *
    rw [hloc] at hlen
    rw [if_neg hlen, hpd, phone_wcc_fixed, hout, hn]

/-- Witness for C6 at the concrete input "01712345678". -/
theorem claim_C6_witness :
    standardize_phone_number "+8801712345678" = some "+8801712345678" :=
  claim_C6 "01712345678" "+8801712345678" (by decide)

/-- Claim C7.  Phone standardization rejection: any input whose local
portion (digits after non-digit stripping, `880` normalization and
removal of the 3-digit code) has fewer than 8 or more than 15 digits is
rejected with `None`. -/
theorem claim_C7 (phone_number : String)
    (h : (phone_local_portion phone_number).length < 8 ∨
      (phone_local_portion phone_number).length > 15) :
    standardize_phone_number phone_number = none := by
  unfold standardize_phone_number
  exact if_pos h

/-- Witness for C7 at the concrete input "0123" (local portion "123",
3 digits). -/
theorem claim_C7_witness : standardize_phone_number "0123" = none :=
  claim_C7 "0123" (by decide)

/-- Claim C8.  Money cleaning: a comma/space-decorated decimal string
maps to its numeric value (for example "1,234.56" to 1234.56); the
empty string, "nan" in any case, and any string whose cleaned form is
not a decimal literal map to 0; the function is total, so no input
raises. -/
theorem claim_C8 :
    clean_amount "1,234.56" = 1234.56 ∧
    clean_amount "" = 0 ∧
    clean_amount "nan" = 0 ∧
    clean_amount "NaN" = 0 ∧
    clean_amount "12a.b" = 0 ∧
    (∀ s q, cleaned_amount_str s ≠ "" →
      pyLower (cleaned_amount_str s) ≠ "nan" →
      pyFloatOfString? (cleaned_amount_str s) = some q →
      clean_amount s = q) ∧
    (∀ s, pyFloatOfString? (cleaned_amount_str s) = none → clean_amount s = 0) := by
  refine ⟨?_, rfl, rfl, rfl, rfl, ?_, ?_⟩
  · rw [show clean_amount "1,234.56" =
        (1 : ℚ) * ((natOfDigits "1234".data : ℚ) +
          (natOfDigits "56".data : ℚ) / (10 : ℚ) ^ ("56".data.length)) from rfl,
      show natOfDigits "1234".data = 1234 from rfl,
      show natOfDigits "56".data = 56 from rfl,
      show "56".data.length = 2 from rfl]
    norm_num
  · intro s q h1 h2 h3
    unfold clean_amount
    rw [if_neg (not_or.mpr ⟨h1, h2⟩), h3]
  · intro s h
    unfold clean_amount
    by_cases hc : cleaned_amount_str s = "" ∨ pyLower (cleaned_amount_str s) = "nan"
    · rw [if_pos hc]
    · rw [if_neg hc, h]

/-- Witness for C8's general clause at the input "1,234.56". -/
theorem claim_C8_witness : clean_amount "1,234.56" = 1234.56 := by
  refine claim_C8.2.2.2.2.2.1 "1,234.56" 1234.56 (by decide) (by decide) ?_
  rw [show pyFloatOfString? (cleaned_amount_str "1,234.56") =
      some ((1 : ℚ) * ((natOfDigits "1234".data : ℚ) +
        (natOfDigits "56".data : ℚ) / (10 : ℚ) ^ ("56".data.length))) from rfl,
    show natOfDigits "1234".data = 1234 from rfl,
    show natOfDigits "56".data = 56 from rfl,
    show "56".data.length = 2 from rfl]
  norm_num

/-- Claim C2, corrected.  The date-window filter keeps exactly the rows
whose parsed sale timestamp lies in the CLOSED window from the resolved
report date at 00:00 to the following day at 02:00 — both endpoints
inclusive, because the source compares with `>=` and `<=`.  (The claim
as stated makes the upper endpoint exclusive; see the
counterexample.) -/
theorem claim_C2 (metadata_date : Option ℤ) (rows : List ReportRow) (day : ℤ)
    (hres : resolve_report_date metadata_date rows = some day) (r : ReportRow) :
    r ∈ ikitchen_window_filter metadata_date rows ↔
      r ∈ rows ∧ ∃ t, r.sale_dt = some t ∧
        1440 * day ≤ t ∧ t ≤ 1440 * (day + 1) + 120 := by
  unfold ikitchen_window_filter
  rw [hres, List.mem_filter]
  rcases h : r.sale_dt with _ | t
  · simp [h]
  · simp [h]

/-- Witness for C2 at a concrete one-row table. -/
theorem claim_C2_witness :
    let row : ReportRow :=
      { receipt_no := "R1", sale_dt := some 700, ordertype_name := some "Eat in",
        register_name := "CO-50010", amount_clean := 100, tax_clean := 10 }
    row ∈ ikitchen_window_filter (some 0) [row] ↔
      row ∈ [row] ∧ ∃ t, row.sale_dt = some t ∧
        1440 * 0 ≤ t ∧ t ≤ 1440 * (0 + 1) + 120 :=
  claim_C2 (some 0) _ 0 rfl _

/-- Counterexample to claim C2 as stated: the claim says a row stamped
exactly 02:00 on day+1 is excluded, but the filter keeps it (the source
uses `<=` on the upper bound, so the window is closed, not
half-open). -/
theorem claim_C2_counterexample :
    resolve_report_date (some 0) [c2_boundary_row] = some 0 ∧
    c2_boundary_row.sale_dt = some (1440 * (0 + 1) + 120) ∧
    c2_boundary_row ∈ ikitchen_window_filter (some 0) [c2_boundary_row] := by
  refine ⟨rfl, rfl, ?_⟩
  rw [show ikitchen_window_filter (some 0) [c2_boundary_row] = [c2_boundary_row] from rfl]
  exact List.mem_singleton.mpr rfl

theorem ordertype_sums_step_total (acc : ℚ × ℚ × ℚ) (kv : String × ℚ) :
    (ordertype_sums_step acc kv).1 + (ordertype_sums_step acc kv).2.1 +
      (ordertype_sums_step acc kv).2.2 = acc.1 + acc.2.1 + acc.2.2 + kv.2 := by
  unfold ordertype_sums_step
  split_ifs <;> ring

/-- Folding `ordertype_sums_step` adds every amount to exactly one
component: the three components sum to the amounts' total. -/
theorem ordertype_sums_foldl_total (l : List (String × ℚ)) : ∀ acc : ℚ × ℚ × ℚ,
    (l.foldl ordertype_sums_step acc).1 + (l.foldl ordertype_sums_step acc).2.1 +
      (l.foldl ordertype_sums_step acc).2.2 =
    acc.1 + acc.2.1 + acc.2.2 + (l.map Prod.snd).sum := by
  induction l with
  | nil => intro acc; simp
  | cons kv l ih =>
    intro acc
    rw [List.foldl_cons, ih (ordertype_sums_step acc kv), ordertype_sums_step_total]
    simp
    ring

theorem add_to_totals_sum (k : String) (v : ℚ) (l : List (String × ℚ)) :
    ((add_to_totals k v l).map Prod.snd).sum = (l.map Prod.snd).sum + v := by
  induction l with
  | nil => simp [add_to_totals]
  | cons kv rest ih =>
    obtain ⟨k', v'⟩ := kv
    unfold add_to_totals
    by_cases h : k' = k
    · rw [if_pos h]
      simp
      ring
    · rw [if_neg h]
      simp [ih]
      ring

/-- Grouping label/amount pairs into per-label totals preserves the
total amount. -/
theorem group_totals_sum (pairs : List (String × ℚ)) :
    ((group_totals pairs).map Prod.snd).sum = (pairs.map Prod.snd).sum := by
  suffices h : ∀ acc : List (String × ℚ),
      ((pairs.foldl (fun acc kv => add_to_totals kv.1 kv.2 acc) acc).map Prod.snd).sum =
        (acc.map Prod.snd).sum + (pairs.map Prod.snd).sum by
    simpa using h []
  induction pairs with
  | nil => intro acc; simp
  | cons kv rest ih =>
    intro acc
    rw [List.foldl_cons, ih (add_to_totals kv.1 kv.2 acc), add_to_totals_sum]
    simp
    ring

/-- Claim C10.  Report-total consistency: when every receipt of the
grouped table carries an order-type label, the three rendered bucket
totals (Eat-in + Delivery + Take-away, in the source's accumulator
order) sum exactly to that location's TOTAL SALES, since both sides sum
the same per-receipt `Order_total` values. -/
theorem claim_C10 (orders_df : List ReceiptRow)
    (h : ∀ r ∈ orders_df, r.ordertype_name ≠ none) :
    (ordertype_sums (get_metrics_ordertype_totals orders_df)).1 +
      (ordertype_sums (get_metrics_ordertype_totals orders_df)).2.1 +
      (ordertype_sums (get_metrics_ordertype_totals orders_df)).2.2 =
    get_metrics_total_sales orders_df := by
  unfold ordertype_sums
  rw [ordertype_sums_foldl_total]
  unfold get_metrics_ordertype_totals
  rw [group_totals_sum]
  unfold get_metrics_total_sales
  simp only [Prod.fst, Prod.snd, zero_add]
  induction orders_df with
  | nil => simp
  | cons r rest ih =>
    rcases hr : r.ordertype_name with _ | k
    · exact absurd hr (h r (List.mem_cons_self r rest))
    · simp only [List.filterMap_cons, hr, Option.map_some', List.map_cons, List.sum_cons]
      rw [ih (fun x hx => h x (List.mem_cons_of_mem r hx))]

/-- Witness for C10 at a concrete two-receipt table. -/
theorem claim_C10_witness :
    (ordertype_sums (get_metrics_ordertype_totals
      [{ receipt_no := "r1", ordertype_name := some "Delivery",
         register_name := "CO-50010", meal_period := "Lunch", order_total := 110 },
       { receipt_no := "r2", ordertype_name := some "weird label",
         register_name := "x", meal_period := "Dinner", order_total := 5 }])).1 +
    (ordertype_sums (get_metrics_ordertype_totals
      [{ receipt_no := "r1", ordertype_name := some "Delivery",
         register_name := "CO-50010", meal_period := "Lunch", order_total := 110 },
       { receipt_no := "r2", ordertype_name := some "weird label",
         register_name := "x", meal_period := "Dinner", order_total := 5 }])).2.1 +
    (ordertype_sums (get_metrics_ordertype_totals
      [{ receipt_no := "r1", ordertype_name := some "Delivery",
         register_name := "CO-50010", meal_period := "Lunch", order_total := 110 },
       { receipt_no := "r2", ordertype_name := some "weird label",
         register_name := "x", meal_period := "Dinner", order_total := 5 }])).2.2 =
    get_metrics_total_sales
      [{ receipt_no := "r1", ordertype_name := some "Delivery",
         register_name := "CO-50010", meal_period := "Lunch", order_total := 110 },
       { receipt_no := "r2", ordertype_name := some "weird label",
         register_name := "x", meal_period := "Dinner", order_total := 5 }] :=
  claim_C10 _ (by decide)

theorem padZeros_length (w n : ℕ) (hw : 0 < w) (h : n < 10 ^ w) :
    (padZeros w n).length = w := by
  have hr := Nat.repr_length n w hw h
  show (List.replicate (w - (Nat.repr n).length) '0' ++ (Nat.repr n).data).length = w
  rw [List.length_append, List.length_replicate]
  have hd : (Nat.repr n).data.length = (Nat.repr n).length := rfl
  omega

theorem format_sale_date_length (d : SaleDate) (hv : d.Valid) :
    (format_sale_date d).length = 10 := by
  obtain ⟨h1, h2, h3⟩ := hv
  have e1 : (padZeros 2 d.day).length = 2 :=
    padZeros_length 2 d.day (by norm_num) (by norm_num; omega)
  have e2 : (padZeros 2 d.month).length = 2 :=
    padZeros_length 2 d.month (by norm_num) (by norm_num; omega)
  have e4 : (padZeros 4 d.year).length = 4 :=
    padZeros_length 4 d.year (by norm_num) (by norm_num; omega)
  unfold format_sale_date
  rw [String.length_append, String.length_append, String.length_append,
    String.length_append, e1, e2, e4]
  rfl

/-- A receipt key `rno ++ "_" ++ formatted-date` determines the receipt
number: the date part has fixed length 10 for calendar-sane dates. -/
theorem receipt_key_inj (r1 r2 : String) (d1 d2 : SaleDate)
    (h1 : d1.Valid) (h2 : d2.Valid)
    (heq : r1 ++ "_" ++ format_sale_date d1 = r2 ++ "_" ++ format_sale_date d2) :
    r1 = r2 := by
  have hd := congrArg String.data heq
  rw [String.data_append, String.data_append, String.data_append,
    String.data_append, List.append_assoc, List.append_assoc] at hd
  have hlen : ("_".data ++ (format_sale_date d1).data).length =
      ("_".data ++ (format_sale_date d2).data).length := by
    rw [List.length_append, List.length_append,
      show (format_sale_date d1).data.length = (format_sale_date d1).length from rfl,
      show (format_sale_date d2).data.length = (format_sale_date d2).length from rfl,
      format_sale_date_length d1 h1, format_sale_date_length d2 h2]
  have hpre := (List.append_inj' hd hlen).1
  cases r1
  cases r2
  exact congrArg String.mk hpre

theorem drop_duplicates_aux_subset (l : List PosRow) :
    ∀ seen, drop_duplicates_aux seen l ⊆ l := by
  induction l with
  | nil => intro seen; simp [drop_duplicates_aux]
  | cons r rs ih =>
    intro seen
    unfold drop_duplicates_aux
    by_cases h : r.receipt_no ∈ seen
    · rw [if_pos h]
      exact fun x hx => List.mem_cons_of_mem r (ih seen hx)
    · rw [if_neg h]
      intro x hx
      rcases List.mem_cons.mp hx with rfl | hx
      · exact List.mem_cons_self x rs
      · exact List.mem_cons_of_mem r (ih _ hx)

/-- The deduplicated rows avoid the seen set and have pairwise distinct
receipt numbers (pandas `drop_duplicates` keeps first occurrences). -/
theorem drop_duplicates_aux_props (l : List PosRow) : ∀ seen,
    (∀ r ∈ drop_duplicates_aux seen l, r.receipt_no ∉ seen) ∧
    (drop_duplicates_aux seen l).Pairwise
      (fun a b => a.receipt_no ≠ b.receipt_no) := by
  induction l with
  | nil => intro seen; constructor <;> simp [drop_duplicates_aux]
  | cons r rs ih =>
    intro seen
    unfold drop_duplicates_aux
    by_cases h : r.receipt_no ∈ seen
    · rw [if_pos h]
      exact ih seen
    · rw [if_neg h]
      obtain ⟨hnotin, hpw⟩ := ih (r.receipt_no :: seen)
      constructor
      · intro x hx
        rcases List.mem_cons.mp hx with rfl | hx
        · exact h
        · exact fun hmem => hnotin x hx (List.mem_cons_of_mem _ hmem)
      · refine List.Pairwise.cons ?_ hpw
        intro b hb hEq
        exact hnotin b hb (List.mem_cons.mpr (Or.inl hEq.symm))

theorem drop_duplicates_receipt_subset (data : List PosRow) :
    drop_duplicates_receipt data ⊆ data :=
  drop_duplicates_aux_subset data []

theorem drop_duplicates_receipt_pairwise (data : List PosRow) :
    (drop_duplicates_receipt data).Pairwise
      (fun a b => a.receipt_no ≠ b.receipt_no) :=
  (drop_duplicates_aux_props data []).2

/-- Every successful order-building run emits only orders whose receipt
key avoids the existing set, and the emitted keys follow the rows'
keys as a sublist. -/
theorem build_orders_props (data : List PosRow) (existing : List String)
    (cmap : String → Option String) (uuid_seq : ℕ → String) :
    ∀ rows idx os,
      build_orders_from data existing cmap uuid_seq idx rows = .ok os →
      (∀ o ∈ os, o.receipt_id ∉ existing) ∧
      (os.map Order.receipt_id).Sublist (rows.filterMap format_receipt_id) := by
  intro rows
  induction rows with
  | nil =>
    intro idx os h
    simp only [build_orders_from, Except.ok.injEq] at h
    subst h
    simp
  | cons row rest ih =>
    intro idx os h
    rcases hdate : row.sale_date with _ | d
    · simp only [build_orders_from, hdate] at h
      obtain ⟨h1, h2⟩ := ih idx os h
      refine ⟨h1, ?_⟩
      rw [List.filterMap_cons]
      simp only [format_receipt_id, hdate]
      exact h2
    · simp only [build_orders_from, hdate] at h
      by_cases hmem : (row.receipt_no ++ "_" ++ format_sale_date d) ∈ existing
      · rw [if_pos hmem] at h
        obtain ⟨h1, h2⟩ := ih idx os h
        refine ⟨h1, ?_⟩
        rw [List.filterMap_cons]
        simp only [format_receipt_id, hdate]
        exact h2.cons _
      · rw [if_neg hmem] at h
        rcases hmap : order_type_mapping row.ordertype_name with _ | ot
        · simp only [hmap] at h
          exact Except.noConfusion h
        · simp only [hmap] at h
          rcases hrec : build_orders_from data existing cmap uuid_seq (idx + 1) rest
            with e | orders
          · simp only [hrec] at h
            exact Except.noConfusion h
          · simp only [hrec, Except.ok.injEq] at h
            subst h
            obtain ⟨h1, h2⟩ := ih (idx + 1) orders hrec
            constructor
            · intro o ho
              rcases List.mem_cons.mp ho with rfl | ho
              · exact hmem
              · exact h1 o ho
            · rw [List.filterMap_cons]
              simp only [format_receipt_id, hdate, List.map_cons]
              exact h2.cons₂ _

/-- When every (parseable) receipt key of the rows is already in the
store, the run emits no orders at all. -/
theorem build_orders_all_existing (data : List PosRow) (existing : List String)
    (cmap : String → Option String) (uuid_seq : ℕ → String) :
    ∀ rows idx,
      (∀ r ∈ rows, ∀ rid, format_receipt_id r = some rid → rid ∈ existing) →
      build_orders_from data existing cmap uuid_seq idx rows = .ok [] := by
  intro rows
  induction rows with
  | nil => intro idx _; rfl
  | cons row rest ih =>
    intro idx hall
    rcases hdate : row.sale_date with _ | d
    · simp only [build_orders_from, hdate]
      exact ih idx (fun r hr => hall r (List.mem_cons_of_mem _ hr))
    · simp only [build_orders_from, hdate]
      have hkey : (row.receipt_no ++ "_" ++ format_sale_date d) ∈ existing :=
        hall row (List.mem_cons_self _ _) _ (by simp [format_receipt_id, hdate])
      rw [if_pos hkey]
      exact ih idx (fun r hr => hall r (List.mem_cons_of_mem _ hr))

/-- Rows with pairwise distinct receipt numbers and calendar-sane dates
produce pairwise distinct receipt keys. -/
theorem filterMap_keys_pairwise (rows : List PosRow)
    (hval : ∀ r ∈ rows, ∀ d, r.sale_date = some d → d.Valid)
    (hpw : rows.Pairwise (fun a b => a.receipt_no ≠ b.receipt_no)) :
    (rows.filterMap format_receipt_id).Pairwise (fun a b => a ≠ b) := by
  induction rows with
  | nil => simp
  | cons row rest ih =>
    rw [List.filterMap_cons]
    obtain ⟨hhead, htailpw⟩ := List.pairwise_cons.mp hpw
    have htail := ih (fun r hr d hd => hval r (List.mem_cons_of_mem _ hr) d hd) htailpw
    rcases hdate : row.sale_date with _ | d
    · simp only [format_receipt_id, hdate]
      exact htail
    · simp only [format_receipt_id, hdate]
      refine List.Pairwise.cons ?_ htail
      intro k hk hEq
      obtain ⟨r', hr', hk'⟩ := List.mem_filterMap.mp hk
      rcases hd' : r'.sale_date with _ | d'
      · simp only [format_receipt_id, hd'] at hk'
        exact Option.noConfusion hk'
      · simp only [format_receipt_id, hd', Option.some.injEq] at hk'
        refine hhead r' hr' ?_
        refine receipt_key_inj _ _ d d'
          (hval row (List.mem_cons_self _ _) d hdate)
          (hval r' (List.mem_cons_of_mem _ hr') d' hd') ?_
        rw [hk', ← hEq]

/-- Claim C1.  Receipt-key dedup invariant: on a run that reaches the
insert step, every emitted order carries a receipt key outside the
existing set and no two emitted orders share a receipt key; and a file
all of whose (parseable) receipt keys already exist produces zero
orders.  The validity hypothesis records that every parsed date is a
calendar date (pandas timestamps always satisfy it). -/
theorem claim_C1 (data : List PosRow) (existing : List String)
    (cmap : String → Option String) (uuid_seq : ℕ → String)
    (hval : ∀ r ∈ data, ∀ d, r.sale_date = some d → d.Valid) :
    (∀ os, process_pos_orders data existing cmap uuid_seq = .ok os →
      (∀ o ∈ os, o.receipt_id ∉ existing) ∧
      os.Pairwise (fun a b => a.receipt_id ≠ b.receipt_id)) ∧
    ((∀ r ∈ data, ∀ rid, format_receipt_id r = some rid → rid ∈ existing) →
      process_pos_orders data existing cmap uuid_seq = .ok []) := by
  have hsub := drop_duplicates_receipt_subset data
  constructor
  · intro os hok
    unfold process_pos_orders at hok
    obtain ⟨h1, h2⟩ := build_orders_props data existing cmap uuid_seq
      (drop_duplicates_receipt data) 0 os hok
    refine ⟨h1, ?_⟩
    have hkeys := filterMap_keys_pairwise (drop_duplicates_receipt data)
      (fun r hr d hd => hval r (hsub hr) d hd)
      (drop_duplicates_receipt_pairwise data)
    exact List.pairwise_map.mp (hkeys.sublist h2)
  · intro hall
    unfold process_pos_orders
    exact build_orders_all_existing data existing cmap uuid_seq _ 0
      (fun r hr rid hrid => hall r (hsub hr) rid hrid)

/-- Witness for C1: re-ingesting a one-receipt file whose key
"A_05_03_2024" is already in the store inserts zero orders. -/
theorem claim_C1_witness :
    process_pos_orders [c1_sample_row] ["A_05_03_2024"]
      (fun _ => none) (fun _ => "uuid-0") = .ok [] := by
  refine (claim_C1 [c1_sample_row] ["A_05_03_2024"]
    (fun _ => none) (fun _ => "uuid-0") (by decide)).2 ?_
  intro r hr rid hrid
  rcases List.mem_cons.mp hr with rfl | hr
  · have h : some "A_05_03_2024" = some rid := hrid
    rw [← Option.some.inj h]
    exact List.mem_cons_self _ _
  · cases hr

/-- If some deduplicated row reaches the `Order` construction with an
unmapped order-type label, the run raises. -/
theorem build_orders_error_of_unmapped (data : List PosRow)
    (existing : List String) (cmap : String → Option String)
    (uuid_seq : ℕ → String) :
    ∀ rows idx,
      (∃ r ∈ rows, ∃ d, r.sale_date = some d ∧
        (r.receipt_no ++ "_" ++ format_sale_date d) ∉ existing ∧
        order_type_mapping r.ordertype_name = none) →
      ∃ msg, build_orders_from data existing cmap uuid_seq idx rows =
        .error msg := by
  intro rows
  induction rows with
  | nil =>
    intro idx h
    obtain ⟨r, hr, -⟩ := h
    cases hr
  | cons row rest ih =>
    intro idx h
    obtain ⟨r, hr, d0, hd0, hnx, hnone⟩ := h
    rcases List.mem_cons.mp hr with rfl | hr
    · simp only [build_orders_from, hd0]
      rw [if_neg hnx, hnone]
      exact ⟨_, rfl⟩
    · rcases hdate : row.sale_date with _ | d
      · simp only [build_orders_from, hdate]
        exact ih idx ⟨r, hr, d0, hd0, hnx, hnone⟩
      · simp only [build_orders_from, hdate]
        by_cases hmem : (row.receipt_no ++ "_" ++ format_sale_date d) ∈ existing
        · rw [if_pos hmem]
          exact ih idx ⟨r, hr, d0, hd0, hnx, hnone⟩
        · rw [if_neg hmem]
          rcases hmap : order_type_mapping row.ordertype_name with _ | ot
          · exact ⟨_, rfl⟩
          · obtain ⟨msg, hmsg⟩ := ih (idx + 1) ⟨r, hr, d0, hd0, hnx, hnone⟩
            rw [hmsg]
            exact ⟨msg, rfl⟩

/-- Claim C3, corrected.  For an order-type label outside the fixed
enumeration the `order_type_mapping` lookup does yield null — but
`models.py` declares `Order.order_type` as a required string, so
pydantic rejects the null: a run whose deduplicated data contains such
a row (with a parseable date and a non-existing receipt key) raises a
validation error and emits nothing, rather than emitting an Order with
a null order type. -/
theorem claim_C3 (data : List PosRow) (existing : List String)
    (cmap : String → Option String) (uuid_seq : ℕ → String)
    (hbad : ∃ r ∈ drop_duplicates_receipt data, ∃ d, r.sale_date = some d ∧
      (r.receipt_no ++ "_" ++ format_sale_date d) ∉ existing ∧
      ¬(r.ordertype_name = "Take away" ∨ r.ordertype_name = "Eat in" ∨
        r.ordertype_name = "Delivery")) :
    (∀ label, ¬(label = "Take away" ∨ label = "Eat in" ∨ label = "Delivery") →
      order_type_mapping label = none) ∧
    ∃ msg, process_pos_orders data existing cmap uuid_seq = .error msg := by
  have hmapnone : ∀ label,
      ¬(label = "Take away" ∨ label = "Eat in" ∨ label = "Delivery") →
      order_type_mapping label = none := by
    intro label hl
    unfold order_type_mapping
    rw [if_neg (fun h => hl (Or.inl h)), if_neg (fun h => hl (Or.inr (Or.inl h))),
      if_neg (fun h => hl (Or.inr (Or.inr h)))]
  refine ⟨hmapnone, ?_⟩
  unfold process_pos_orders
  obtain ⟨r, hr, d, hd, hnx, hlbl⟩ := hbad
  exact build_orders_error_of_unmapped data existing cmap uuid_seq _ 0
    ⟨r, hr, d, hd, hnx, hmapnone _ hlbl⟩

/-- Witness for C3 at a concrete one-row file with label "Foo". -/
theorem claim_C3_witness :
    (∀ label, ¬(label = "Take away" ∨ label = "Eat in" ∨ label = "Delivery") →
      order_type_mapping label = none) ∧
    ∃ msg, process_pos_orders [c3_unrecognized_row] [] (fun _ => none)
      (fun _ => "uuid-0") = .error msg :=
  claim_C3 [c3_unrecognized_row] [] (fun _ => none) (fun _ => "uuid-0")
    ⟨c3_unrecognized_row, by decide, ⟨5, 3, 2024⟩, rfl, by decide, by decide⟩

/-- Counterexample to claim C3 as stated: the claim says the Order is
constructed with a null order type and still emitted; in fact the run
on a one-row file with the unrecognized label "Foo" aborts with a
pydantic validation error and emits nothing. -/
theorem claim_C3_counterexample :
    order_type_mapping "Foo" = none ∧
    process_pos_orders [c3_unrecognized_row] [] (fun _ => none)
        (fun _ => "uuid-0") =
      .error
        "pydantic ValidationError: order_type may not be None, receipt R1_05_03_2024" :=
  ⟨rfl, rfl⟩

end IkitchenSalesReport
